import Mathlib

/-!
# Verification of the hotel-boq core

A shallow embedding, in Lean 4, of the core modules of the `hotel-boq`
repository (`src/core/ftypes.py`, `src/core/lazy.py`, `src/core/memo.py`,
`src/core/frp.py`, `src/core/service.py`), together with theorems settling
the specification claims about them.

Conventions used throughout:
* Python `int` is modelled as `Int`, Python `str` as `String`.
* Python tuples/lists of records are modelled as `List`.
* Python dictionaries with string keys are modelled as association lists
  (first binding wins, as `dict` keys are unique).
* Python generators are modelled both as the list of all values they yield
  and (for the laziness claims) as an explicit pull-driven step function.
* Mutable aliased lists (the event bus derived state) are modelled with an
  explicit store of numbered cells; a Python list object is a cell index.
* Exceptions are modelled with `Except String`; `str(e)` is the carried
  message.
-/

namespace HotelBoq

/-! ## `src/core/ftypes.py` — Maybe and Either -/

/-- `Maybe` from `ftypes.py`: `_Just(value)` or `_Nothing()`. -/
inductive Maybe (α : Type) where
  | just : α → Maybe α
  | nothing : Maybe α
  deriving DecidableEq, Repr

namespace Maybe

/-- `_Just.map` returns `Just(func(value))`; `_Nothing.map` returns `Nothing`. -/
def map {α β : Type} (m : Maybe α) (f : α → β) : Maybe β :=
  match m with
  | just a => just (f a)
  | nothing => nothing

/-- `_Just.bind` returns `func(value)`; `_Nothing.bind` returns `Nothing`. -/
def bind {α β : Type} (m : Maybe α) (f : α → Maybe β) : Maybe β :=
  match m with
  | just a => f a
  | nothing => nothing

/-- `get_or_else`: the wrapped value for `_Just`, the default for `_Nothing`. -/
def get_or_else {α : Type} (m : Maybe α) (default : α) : α :=
  match m with
  | just a => a
  | nothing => default

/-- `is_just`. -/
def is_just {α : Type} (m : Maybe α) : Bool :=
  match m with
  | just _ => true
  | nothing => false

end Maybe

/-- `Either` from `ftypes.py`: `_Right(value)` or `_Left(error)`. -/
inductive Either (ε α : Type) where
  | left : ε → Either ε α
  | right : α → Either ε α
  deriving DecidableEq, Repr

namespace Either

/-- `_Right.map` returns `Right(func(value))`; `_Left.map` returns `Left(error)`. -/
def map {ε α β : Type} (m : Either ε α) (f : α → β) : Either ε β :=
  match m with
  | left e => left e
  | right a => right (f a)

/-- `_Right.bind` returns `func(value)`; `_Left.bind` returns `Left(error)`. -/
def bind {ε α β : Type} (m : Either ε α) (f : α → Either ε β) : Either ε β :=
  match m with
  | left e => left e
  | right a => f a

/-- `get_or_else`: the wrapped value for `_Right`, the default for `_Left`. -/
def get_or_else {ε α : Type} (m : Either ε α) (default : α) : α :=
  match m with
  | left _ => default
  | right a => a

/-- `is_right`. -/
def is_right {ε α : Type} (m : Either ε α) : Bool :=
  match m with
  | left _ => false
  | right _ => true

/-- `is_left`: `not self.is_right()`. -/
def is_left {ε α : Type} (m : Either ε α) : Bool :=
  !(is_right m)

/-- `_Right.map_error` returns `self`; `_Left.map_error` returns `Left(func(error))`. -/
def map_error {ε α : Type} (m : Either ε α) (f : ε → ε) : Either ε α :=
  match m with
  | left e => left (f e)
  | right a => right a

end Either

/-! ## `src/core/domain.py` — immutable value records -/

/-- `Hotel` from `domain.py`. -/
structure Hotel where
  id : String
  name : String
  stars : Int
  city : String
  features : List String
  description : String := ""
  deriving DecidableEq, Repr

/-- `RoomType` from `domain.py`. -/
structure RoomType where
  id : String
  hotel_id : String
  name : String
  capacity : Int
  beds : List String
  features : List String
  size : String := ""
  deriving DecidableEq, Repr

/-- `RatePlan` from `domain.py`. -/
structure RatePlan where
  id : String
  hotel_id : String
  room_type_id : String
  title : String
  meal : String
  refundable : Bool
  cancel_before_days : Option Int
  description : String := ""
  deriving DecidableEq, Repr

/-- `Price` from `domain.py`. -/
structure Price where
  id : String
  rate_id : String
  date : String
  amount : Int
  currency : String
  deriving DecidableEq, Repr

/-- `Availability` from `domain.py`. -/
structure Availability where
  id : String
  room_type_id : String
  date : String
  available : Int
  deriving DecidableEq, Repr

/-- `CartItem` from `domain.py`. -/
structure CartItem where
  id : String
  hotel_id : String
  room_type_id : String
  rate_id : String
  checkin : String
  checkout : String
  guests : Int
  deriving DecidableEq, Repr

/-- `Booking` from `domain.py`. -/
structure Booking where
  id : String
  guest_id : String
  items : List CartItem
  total : Int
  status : String
  created_at : String := ""
  deriving DecidableEq, Repr

/-! ## `src/core/lazy.py` — lazy offer search

`lazy_offers` builds per-id indices (`room_types_by_hotel`, `rates_by_room_type`,
`prices_by_rate`, `availability_by_room_type`) by grouping the input tuples in
order, then walks hotel → its rooms → each room's rates. Grouping a list by a
key and then looking the key up yields exactly the in-order sublist with that
key, so the index lookups are modelled with `List.filter` / `List.find?`. -/

/-- One candidate tuple `(hotel, room_type, rate, price_amount, is_available)`
as produced by the generator body of `lazy_offers` before the predicate is
applied. -/
structure Cand where
  hotel : Hotel
  room_type : RoomType
  rate : RatePlan
  price : Int
  available : Bool
  deriving DecidableEq, Repr

/-- `rate_prices[0].amount if rate_prices else 100`: the first price whose
`rate_id` matches, defaulting to 100. -/
def priceAmountFor (prices : List Price) (rate : RatePlan) : Int :=
  match prices.find? (fun p => p.rate_id == rate.id) with
  | some p => p.amount
  | none => 100

/-- `any(avail.available > 0 for avail in room_availability)` where
`room_availability` is the group of entries for this room type. -/
def isAvailableFor (availability : List Availability) (rt : RoomType) : Bool :=
  availability.any (fun a => a.room_type_id == rt.id && a.available > 0)

/-- The full candidate stream of `lazy_offers`, in generation order:
for each hotel, for each of its room types, for each of the room's rates. -/
def offerStream (hotels : List Hotel) (room_types : List RoomType)
    (rates : List RatePlan) (prices : List Price)
    (availability : List Availability) : List Cand :=
  hotels.flatMap (fun h =>
    ((room_types.filter (fun rt => rt.hotel_id == h.id)).flatMap (fun rt =>
      (rates.filter (fun r => r.room_type_id == rt.id)).map (fun r =>
        { hotel := h, room_type := rt, rate := r,
          price := priceAmountFor prices r,
          available := isAvailableFor availability rt }))))

/-- The `filters` dict passed to `lazy_search_results`. An absent key is
`none`; a present key holds the stored value (the code only ever stores
strings, ints and string lists under these keys). -/
structure SearchRequest where
  city : Option String := none
  min_stars : Option Int := none
  guests : Option Int := none
  max_price : Option Int := none
  features : List String := []
  limit : Option Int := none
  deriving Repr

/-- Python truthiness of `filters.get(key)` for a string-valued key:
present and non-empty. -/
def truthyStr (o : Option String) : Bool :=
  match o with
  | none => false
  | some s => s ≠ ""

/-- Python truthiness of `filters.get(key)` for an int-valued key:
present and non-zero. -/
def truthyInt (o : Option Int) : Bool :=
  match o with
  | none => false
  | some n => n ≠ 0

/-- `search_predicate` from `lazy_search_results`: city, minimum stars,
capacity, maximum price and required features, each guarded by truthiness
of the corresponding filter value. -/
def searchPredicate (filters : SearchRequest) (c : Cand) : Bool :=
  if truthyStr filters.city &&
      !(c.hotel.city.toLower == (filters.city.getD "").toLower) then false
  else if truthyInt filters.min_stars &&
      c.hotel.stars < filters.min_stars.getD 0 then false
  else if truthyInt filters.guests &&
      c.room_type.capacity < filters.guests.getD 0 then false
  else if truthyInt filters.max_price &&
      c.price > filters.max_price.getD 0 then false
  else if !filters.features.isEmpty &&
      !(filters.features.all (fun f =>
          c.hotel.features.contains f || c.room_type.features.contains f)) then false
  else true

/-- The offer dict yielded by `lazy_search_results`. -/
structure Offer where
  hotel : Hotel
  room_type : RoomType
  rate : RatePlan
  price_per_night : Int
  available : Bool
  total_price : Int
  deriving DecidableEq, Repr

/-- Build the yielded dict from a candidate:
`total_price = price * 3` (fixed three-night display simplification). -/
def toOffer (c : Cand) : Offer :=
  { hotel := c.hotel, room_type := c.room_type, rate := c.rate,
    price_per_night := c.price, available := c.available,
    total_price := c.price * 3 }

/-- The truncation test `if limit and count >= limit` in
`lazy_search_results`: `limit` is tested for truthiness (non-`None` and
non-zero), then compared against the number of offers already yielded. -/
def truncCond (limit : Option Int) (count : Nat) : Bool :=
  match limit with
  | none => false
  | some l => l ≠ 0 && l ≤ (count : Int)

/-- The generator loop of `lazy_search_results`, run to completion (as
`list(...)` does): walk the candidate stream; on a candidate passing the
predicate, stop if the truncation test fires, otherwise yield the offer and
increment `count`. -/
def runGen (pred : Cand → Bool) (limit : Option Int) :
    List Cand → Nat → List Offer
  | [], _ => []
  | c :: rest, count =>
    if pred c then
      if truncCond limit count then []
      else toOffer c :: runGen pred limit rest (count + 1)
    else runGen pred limit rest count

/-- `lazy_search_results(hotels, room_types, rates, prices, availability,
filters, limit)`, fully consumed: the list of all offers the generator
yields. -/
def lazy_search_results (hotels : List Hotel) (room_types : List RoomType)
    (rates : List RatePlan) (prices : List Price)
    (availability : List Availability) (filters : SearchRequest)
    (limit : Option Int) : List Offer :=
  runGen (searchPredicate filters) limit
    (offerStream hotels room_types rates prices availability) 0

/-! ### Pull-driven semantics of the generator

Python generators are demand driven: each `next()` call resumes the body
until the next `yield` (or `return`). `pullOne` is one such resumption of
the `lazy_search_results` body; its state is the not-yet-examined tail of
the candidate stream together with the `count` of offers already yielded. -/

/-- Suspended state of the `lazy_search_results` generator. -/
structure GenState where
  cands : List Cand
  count : Nat
  deriving DecidableEq, Repr

/-- One resumption: scan candidates (each scan examines one candidate of the
cross-product) until the next one passing the predicate; then either stop
(`return`, when the truncation test fires) or yield its offer. The
returned state records which candidates remain unexamined: all of them
were examined when the stream was exhausted, and everything up to and
including the pulled-but-discarded match when the truncation test fired. -/
def pullOneAux (pred : Cand → Bool) (limit : Option Int) :
    List Cand → Nat → Option Offer × GenState
  | [], count => (none, { cands := [], count := count })
  | c :: rest, count =>
    if pred c then
      if truncCond limit count then (none, { cands := rest, count := count })
      else (some (toOffer c), { cands := rest, count := count + 1 })
    else pullOneAux pred limit rest count

/-- One `next()` call on the suspended generator. -/
def pullOne (pred : Cand → Bool) (limit : Option Int) (g : GenState) :
    Option Offer × GenState :=
  pullOneAux pred limit g.cands g.count

/-- A consumer pulling at most `k` items and then abandoning the generator. -/
def pulls (pred : Cand → Bool) (limit : Option Int) :
    Nat → GenState → List Offer × GenState
  | 0, g => ([], g)
  | k + 1, g =>
    match pullOne pred limit g with
    | (none, g2) => ([], g2)
    | (some o, g2) =>
      let r := pulls pred limit k g2
      (o :: r.1, r.2)

/-- Split the candidate stream at the minimal prefix containing `k`
candidates passing `pred` (ending at the `k`-th such candidate), or at the
end of the stream when fewer exist. The first component is what a consumer
of `k` results forces the generator to examine; the second is never
examined. -/
def examineSplit (pred : Cand → Bool) : Nat → List Cand → List Cand × List Cand
  | 0, cands => ([], cands)
  | _ + 1, [] => ([], [])
  | k + 1, c :: rest =>
    if pred c then
      let r := examineSplit pred k rest
      (c :: r.1, r.2)
    else
      let r := examineSplit pred (k + 1) rest
      (c :: r.1, r.2)

/-! ## `src/core/service.py` — `SearchService`

`SearchService.search` materialises `lazy_search_results`, filters the
results through the configured filter functions, then runs
`filtered_results.sort(key=scorer, reverse=True)` once per configured
scorer, in configuration order. Python's `list.sort` is a stable sort, and
`reverse=True` preserves stability (equal keys keep their relative order);
any stable descending sort computes the same list, so the sort is modelled
with insertion sort under the relation `key b ≤ key a`. Scorer keys are
modelled as `Int` (the configured scorers return numeric values and only
their total order matters). -/

/-- One `filtered_results.sort(key=scorer, reverse=True)`: a stable sort
putting larger keys first and keeping equal keys in their existing order. -/
def sortByKeyDesc (key : Offer → Int) (l : List Offer) : List Offer :=
  List.insertionSort (fun a b => key b ≤ key a) l

/-- `SearchService`: a frozen dataclass holding configured filter and scorer
functions. -/
structure SearchService where
  filters : List (Offer → Bool)
  scorers : List (Offer → Int)

/-- `SearchService.search`: materialise the lazy results with
`limit=search_request.get('limit', 50)`, keep results passing every
configured filter, then re-sort once per scorer (the `for scorer in
self.scorers` loop; with no scorers the list is returned as filtered). -/
def SearchService.search (svc : SearchService) (hotels : List Hotel)
    (room_types : List RoomType) (rates : List RatePlan)
    (prices : List Price) (availability : List Availability)
    (search_request : SearchRequest) : List Offer :=
  let results := lazy_search_results hotels room_types rates prices
    availability search_request (some (search_request.limit.getD 50))
  let filtered_results := results.filter (fun r => svc.filters.all (fun f => f r))
  svc.scorers.foldl (fun acc scorer => sortByKeyDesc scorer acc) filtered_results

/-- What it means for `r` to be the stable descending sort of `l` by `key`:
a permutation of `l`, sorted with larger keys first, in which the
offers sharing any given key value appear in exactly the order they had in
`l`. Stated from the spec's words ("a **stable** re-sort (descending) of
the filtered list by that scorer's key") to compare the code against. -/
def IsStableDescSortBy (key : Offer → Int) (l r : List Offer) : Prop :=
  r.Perm l ∧ r.Sorted (fun a b => key b ≤ key a) ∧
    ∀ v : Int, r.filter (fun x => key x == v) = l.filter (fun x => key x == v)

/-! ## `src/core/memo.py` — `quote_offer`

`quote_offer` parses the two dates with `datetime.strptime(_, '%Y-%m-%d')`,
takes `nights = (checkout_date - checkin_date).days`, and prices at a fixed
100 per night. `datetime` subtraction of two midnight timestamps is the
difference of their positions in the proleptic Gregorian calendar, modelled
here with the standard civil-calendar day numbering. The `lru_cache`
wrapper is transparent to the value computed; `calculated_at`
(`datetime.now()`) is taken as a parameter. -/

/-- Gregorian leap year. -/
def isLeapYear (y : Nat) : Bool :=
  (y % 4 == 0 && y % 100 ≠ 0) || y % 400 == 0

/-- Days in a month of the Gregorian calendar. -/
def daysInMonth (y m : Nat) : Nat :=
  if m == 2 then (if isLeapYear y then 29 else 28)
  else if m == 4 || m == 6 || m == 9 || m == 11 then 30
  else 31

/-- Day number of a Gregorian date (monotone counter of civil days, for
years ≥ 1; the standard era/year-of-era/day-of-year computation). -/
def civilDay (y m d : Nat) : Nat :=
  let y2 := if m ≤ 2 then y - 1 else y
  let era := y2 / 400
  let yoe := y2 % 400
  let mp := (m + 9) % 12
  let doy := (153 * mp + 2) / 5 + (d - 1)
  let doe := yoe * 365 + yoe / 4 - yoe / 100 + doy
  era * 146097 + doe

/-- Split a character list at `'-'` separators (the literal separators of
the `'%Y-%m-%d'` format). -/
def splitDashAux : List Char → List Char → List (List Char)
  | [], acc => [acc.reverse]
  | c :: rest, acc =>
    if c = '-' then acc.reverse :: splitDashAux rest []
    else splitDashAux rest (c :: acc)

/-- The dash-separated fields of the string. -/
def splitDashes (cs : List Char) : List (List Char) :=
  splitDashAux cs []

/-- A digits-only, non-empty numeral, as `strptime` requires per field. -/
def isDigitList (cs : List Char) : Bool :=
  !cs.isEmpty && cs.all Char.isDigit

/-- Decimal value of a digit string. -/
def natOfDigits (cs : List Char) : Nat :=
  cs.foldl (fun acc c => acc * 10 + (c.toNat - 48)) 0

/-- `datetime.strptime(s, '%Y-%m-%d')`: three dash-separated numerals
forming a valid `datetime` date (year 1–9999). Returns the parsed
`(year, month, day)` or `none` when parsing would raise. -/
def parseDate (s : String) : Option (Nat × Nat × Nat) :=
  match splitDashes s.toList with
  | [ys, ms, ds] =>
    if isDigitList ys && isDigitList ms && isDigitList ds then
      let y := natOfDigits ys
      let m := natOfDigits ms
      let d := natOfDigits ds
      if 1 ≤ y && y ≤ 9999 && 1 ≤ m && m ≤ 12 && 1 ≤ d && d ≤ daysInMonth y m
      then some (y, m, d)
      else none
    else none
  | _ => none

/-- The dict returned by `quote_offer`. -/
structure QuoteRecord where
  hotel_id : String
  room_type_id : String
  rate_id : String
  checkin : String
  checkout : String
  guests : Int
  nights : Int
  total_price : Int
  currency : String
  calculated_at : String
  deriving DecidableEq, Repr

/-- `quote_offer(hotel_id, room_type_id, rate_id, checkin, checkout,
guests)`: `nights = (checkout_date - checkin_date).days`,
`total_price = nights * 100`, `currency = 'USD'`; `none` when `strptime`
raises on either date. `now` stands for `datetime.now().isoformat()`. -/
def quote_offer (now : String) (hotel_id room_type_id rate_id : String)
    (checkin checkout : String) (guests : Int) : Option QuoteRecord :=
  match parseDate checkin, parseDate checkout with
  | some (y1, m1, d1), some (y2, m2, d2) =>
    let nights : Int := (civilDay y2 m2 d2 : Int) - (civilDay y1 m1 d1 : Int)
    some
      { hotel_id := hotel_id, room_type_id := room_type_id, rate_id := rate_id,
        checkin := checkin, checkout := checkout, guests := guests,
        nights := nights, total_price := nights * 100, currency := "USD",
        calculated_at := now }
  | _, _ => none

/-! ## `src/core/frp.py` — the event bus

Event payloads are `Dict[str, Any]`; the values the code stores and
compares under payload keys are strings and ints, modelled by `Val`. A
payload is an association list (dict) from keys to values.

The derived state `self._state` is a dict whose five entries hold *list
objects*; `_update_state` mutates those lists in place (`.append`) except
for the `BOOKED` case, which rebinds `self._state['active_holds']` to a
fresh list. To capture this aliasing, list objects live in an explicit
`Store` of numbered cells and the state dict holds cell indices. -/

/-- A payload value: the code stores strings and ints under payload keys. -/
inductive Val where
  | vstr : String → Val
  | vint : Int → Val
  deriving DecidableEq, Repr

/-- A payload dict. -/
abbrev Payload := List (String × Val)

/-- `payload.get(k)`: the value bound to `k`, or `None`. -/
def pget (p : Payload) (k : String) : Option Val :=
  match p with
  | [] => none
  | (k2, v) :: rest => if k2 == k then some v else pget rest k

/-- Setting key `k` in a dict (`{**p, k: v}` semantics for one key): an
existing binding is overwritten in place, a new key is appended. -/
def pset (p : Payload) (k : String) (v : Val) : Payload :=
  match p with
  | [] => [(k, v)]
  | (k2, w) :: rest => if k2 == k then (k2, v) :: rest else (k2, w) :: pset rest k v

/-- `{**event.payload, 'event_id': event.id, 'timestamp': event.ts}`. -/
def augmentPayload (p : Payload) (eid ts : String) : Payload :=
  pset (pset p "event_id" (Val.vstr eid)) "timestamp" (Val.vstr ts)

/-- `Event` from `domain.py`. -/
structure Event where
  id : String
  ts : String
  name : String
  payload : Payload
  deriving DecidableEq, Repr

/-- A heap of Python list objects: cell `r` is the list at index `r`. -/
abbrev Store := List (List Payload)

/-- Dereference a list object. -/
def readCell (σ : Store) (r : Nat) : List Payload :=
  σ.getD r []

/-- In-place assignment to a list object. -/
def writeCell (σ : Store) (r : Nat) (v : List Payload) : Store :=
  σ.set r v

/-- `list.append(x)`: in-place mutation of the cell. -/
def appendCell (σ : Store) (r : Nat) (x : Payload) : Store :=
  writeCell σ r (readCell σ r ++ [x])

/-- Creating a fresh list object holding `v`. -/
def allocCell (σ : Store) (v : List Payload) : Store × Nat :=
  (σ ++ [v], σ.length)

/-- `self._state`: a dict mapping the five keys to list objects
(cell indices), in the order they are created in `EventBus.__init__`. -/
structure StateDict where
  active_holds : Nat
  recent_bookings : Nat
  price_changes : Nat
  search_queries : Nat
  cancellations : Nat
  deriving DecidableEq, Repr

/-- `EventBus._update_state(event)`: dispatch on `event.name`. `HOLD`,
`CANCELLED`, `PRICE_CHANGED` and `SEARCH` append the augmented payload to
their list in place; `BOOKED` appends to `recent_bookings` in place and
then rebinds `active_holds` to a new list keeping the holds whose
`hold.get('id')` differs from `event.payload.get('hold_id')`. Any other
name leaves the state untouched. -/
def updateState (d : StateDict) (σ : Store) (e : Event) : StateDict × Store :=
  if e.name == "HOLD" then
    (d, appendCell σ d.active_holds (augmentPayload e.payload e.id e.ts))
  else if e.name == "BOOKED" then
    let σ1 := appendCell σ d.recent_bookings (augmentPayload e.payload e.id e.ts)
    let kept := (readCell σ1 d.active_holds).filter
      (fun hold => !(pget hold "id" == pget e.payload "hold_id"))
    let a := allocCell σ1 kept
    ({ d with active_holds := a.2 }, a.1)
  else if e.name == "CANCELLED" then
    (d, appendCell σ d.cancellations (augmentPayload e.payload e.id e.ts))
  else if e.name == "PRICE_CHANGED" then
    (d, appendCell σ d.price_changes (augmentPayload e.payload e.id e.ts))
  else if e.name == "SEARCH" then
    (d, appendCell σ d.search_queries (augmentPayload e.payload e.id e.ts))
  else (d, σ)

/-- `Subscription` from `frp.py`. The callback's behaviour is modelled by
its outcome: `Except.error` when invoking it raises. The optional filter
predicate is a pure test. -/
structure Subscription where
  id : String
  event_type : String
  callback : Event → Except String Unit
  filter_predicate : Option (Event → Bool)

/-- Does the subscriber's optional filter accept the event
(`subscriber.filter_predicate and not subscriber.filter_predicate(event)`
skips it)? -/
def acceptsEvent (s : Subscription) (e : Event) : Bool :=
  match s.filter_predicate with
  | none => true
  | some p => p e

/-- `EventBus`: registered subscriptions (in registration order; the code
keys them by event type in a dict of lists, which preserves registration
order within each type), the event history, and the derived-state dict. -/
structure EventBus where
  subscribers : List Subscription
  event_history : List Event
  state : StateDict

/-- `EventBus.__init__`: empty subscribers and history, and five fresh
empty lists for `active_holds`, `recent_bookings`, `price_changes`,
`search_queries`, `cancellations`. -/
def newEventBus (σ : Store) : EventBus × Store :=
  ({ subscribers := [], event_history := [],
     state :=
      { active_holds := σ.length, recent_bookings := σ.length + 1,
        price_changes := σ.length + 2, search_queries := σ.length + 3,
        cancellations := σ.length + 4 } },
   σ ++ [[], [], [], [], []])

/-- `EventBus.get_state()`: `self._state.copy()` — a new dict with the same
keys bound to the *same* list objects (a shallow copy). The returned
`StateDict` value is independent of later rebindings inside the bus, but
its cell indices still alias the bus's lists. -/
def get_state (bus : EventBus) : StateDict :=
  bus.state

/-- The notification loop of `publish`: for each subscription registered
for the event's name, in order, inside `try`: skip it if its filter
rejects the event, otherwise invoke the callback; an exception from the
callback is caught and printed. Returns the ids of the subscribers invoked
and the ids of those whose callback raised. -/
def notifySubs (subs : List Subscription) (e : Event) :
    List String × List String :=
  match subs with
  | [] => ([], [])
  | s :: rest =>
    let r := notifySubs rest e
    if acceptsEvent s e then
      match s.callback e with
      | Except.ok _ => (s.id :: r.1, r.2)
      | Except.error _ => (s.id :: r.1, s.id :: r.2)
    else r

/-- Result of `publish`: the updated bus and store, plus (for observation)
which subscribers were invoked and which of them raised. -/
structure PublishResult where
  bus : EventBus
  store : Store
  invoked : List String
  errored : List String

/-- `EventBus.publish(event)`: append the event to the history, update the
derived state, then notify the subscribers registered for `event.name`.
Exceptions raised by callbacks are caught inside the loop, so `publish`
always completes. -/
def publish (bus : EventBus) (σ : Store) (e : Event) : PublishResult :=
  let hist := bus.event_history ++ [e]
  let u := updateState bus.state σ e
  let n := notifySubs (bus.subscribers.filter (fun s => s.event_type == e.name)) e
  { bus := { bus with event_history := hist, state := u.1 },
    store := u.2, invoked := n.1, errored := n.2 }

/-- Well-formedness of a state dict over a store: the five cell indices
are in bounds and pairwise distinct (as they are for every bus built by
`EventBus.__init__` and evolved by `_update_state`). -/
def StateDict.wf (d : StateDict) (σ : Store) : Prop :=
  d.active_holds < σ.length ∧ d.recent_bookings < σ.length ∧
  d.price_changes < σ.length ∧ d.search_queries < σ.length ∧
  d.cancellations < σ.length ∧
  d.active_holds ≠ d.recent_bookings ∧ d.active_holds ≠ d.price_changes ∧
  d.active_holds ≠ d.search_queries ∧ d.active_holds ≠ d.cancellations ∧
  d.recent_bookings ≠ d.price_changes ∧ d.recent_bookings ≠ d.search_queries ∧
  d.recent_bookings ≠ d.cancellations ∧ d.price_changes ≠ d.search_queries ∧
  d.price_changes ≠ d.cancellations ∧ d.search_queries ≠ d.cancellations

instance (d : StateDict) (σ : Store) : Decidable (d.wf σ) := by
  unfold StateDict.wf
  infer_instance

/-! ## `src/core/service.py` — `BookingService.create_booking`

`create_booking` threads a dict
`{'guest', 'items', 'prices', 'availability', 'rules'}` through
`PipeLine.of(...).map(self._validate_booking).map(self._calculate_totals)
.map(self._finalize_booking).run()`; any exception raised along the way is
caught and returned as `Either.left(str(e))`. The service is the one built
by `create_booking_service()`: validators
`(validate_guest_data, validate_availability)`, quoter
`calculate_item_price`, finalizer `finalize_booking`. `uuid4()` and
`datetime.now()` are taken as parameters. -/

/-- `Rule` from `domain.py` (opaque to the booking pipeline). -/
structure Rule where
  id : String
  kind : String
  payload : Payload
  deriving DecidableEq, Repr

/-- The guest dict: string keys to string values. -/
abbrev StrDict := List (String × String)

/-- `guest.get(k)`. -/
def sget (g : StrDict) (k : String) : Option String :=
  match g with
  | [] => none
  | (k2, v) :: rest => if k2 == k then some v else sget rest k

/-- The dict assembled at the start of `create_booking`. -/
structure BookingData where
  guest : StrDict
  items : List CartItem
  prices : List Price
  availability : List Availability
  rules : List Rule

/-- `validate_guest_data` from `create_booking_service`: requires a truthy
`name`, a truthy `email`, and `'@'` in the email. -/
def validate_guest_data (bd : BookingData) : Either String BookingData :=
  if !(truthyStr (sget bd.guest "name")) then
    Either.left "Guest name is required"
  else if !(truthyStr (sget bd.guest "email")) then
    Either.left "Guest email is required"
  else if !(((sget bd.guest "email").getD "").contains '@') then
    Either.left "Invalid email format"
  else Either.right bd

/-- `validate_availability` from `create_booking_service`: the first item
whose `room_type_id` starts with `'sold_out'` fails the booking. -/
def validate_availability (bd : BookingData) : Either String BookingData :=
  match bd.items.find? (fun it => it.room_type_id.startsWith "sold_out") with
  | some it => Either.left ("Room " ++ it.room_type_id ++ " is not available")
  | none => Either.right bd

/-- The configured validator tuple of `create_booking_service()`. -/
def bookingValidators : List (BookingData → Either String BookingData) :=
  [validate_guest_data, validate_availability]

/-- `BookingService._validate_booking`: run each validator in order; on the
first `Left`, `raise ValueError(result.get_or_else("Validation failed"))`.
On a `Left`, `get_or_else` returns the supplied *default* (see
`Either.get_or_else`), so the exception message is always the literal
string `"Validation failed"`; the validator's own error message is
discarded. -/
def runValidatorLoop (vs : List (BookingData → Either String BookingData))
    (bd : BookingData) : Except String BookingData :=
  match vs with
  | [] => Except.ok bd
  | v :: rest =>
    if (v bd).is_left then Except.error "Validation failed"
    else runValidatorLoop rest bd

/-- `calculate_item_price` from `create_booking_service`: `nights = 3`,
price `item.guests * 100 * nights` (the `prices` argument is unused). -/
def calculate_item_price (item : CartItem) (prices : List Price) : Int :=
  item.guests * 100 * 3

/-- `BookingService._calculate_totals`: sum the quoter over the items. -/
def calculateTotals (bd : BookingData) : Int :=
  (bd.items.map (fun it => calculate_item_price it bd.prices)).sum

/-- `finalize_booking` from `create_booking_service`: build the confirmed
`Booking`. `booking_data['guest']['id']` raises `KeyError('id')` when the
guest dict has no `id` key; `str` of that exception is `"'id'"`. -/
def finalize_booking (newId nowStr : String) (bd : BookingData)
    (total : Int) : Except String Booking :=
  match sget bd.guest "id" with
  | none => Except.error "\x27id\x27"
  | some gid =>
    Except.ok
      { id := newId, guest_id := gid, items := bd.items, total := total,
        status := "confirmed", created_at := nowStr }

/-- `BookingService.create_booking` (with the `create_booking_service()`
configuration): run the three pipeline stages, catching any exception into
`Either.left(str(e))`. The pipeline value is a non-`None` dict, so
`PipeLine._execute`'s `None` guard never fires. -/
def create_booking (newId nowStr : String) (guest : StrDict)
    (cart_items : List CartItem) (prices : List Price)
    (availability : List Availability) (rules : List Rule) :
    Either String Booking :=
  let bd : BookingData :=
    { guest := guest, items := cart_items, prices := prices,
      availability := availability, rules := rules }
  match runValidatorLoop bookingValidators bd with
  | Except.error e => Either.left e
  | Except.ok bd2 =>
    match finalize_booking newId nowStr bd2 (calculateTotals bd2) with
    | Except.error e => Either.left e
    | Except.ok b => Either.right b

/-! ## `src/core/service.py` — `AsyncQuoteService.quote_batch`

`quote_batch` fans one `calculate_quote` task out per item and gathers with
`return_exceptions=True`, so `results` is index-aligned with `items` and a
raised exception is captured as a value. The per-item computation is a
function of the item alone, modelled by `calc`; an exception is
`Except.error` carrying `str(result)`. The gather loop then routes each
result to `successful` or, paired with its item and message, to `failed`. -/

/-- The dict returned by `quote_batch`. -/
structure QuoteBatchResult (I Q : Type) where
  successful : List Q
  failed : List (I × String)
  total_count : Nat
  success_count : Nat
  failure_count : Nat
  deriving Repr

/-- The `for i, result in enumerate(results)` grouping loop. -/
def gatherPartition {I Q : Type} :
    List (I × Except String Q) → List Q × List (I × String)
  | [] => ([], [])
  | (i, r) :: rest =>
    let acc := gatherPartition rest
    match r with
    | Except.ok q => (q :: acc.1, acc.2)
    | Except.error e => (acc.1, (i, e) :: acc.2)

/-- `AsyncQuoteService.quote_batch(items)`. -/
def quote_batch {I Q : Type} (calcQuote : I → Except String Q)
    (items : List I) : QuoteBatchResult I Q :=
  let results := items.map calcQuote
  let p := gatherPartition (items.zip results)
  { successful := p.1, failed := p.2, total_count := items.length,
    success_count := p.1.length, failure_count := p.2.length }

/-- Does invoking this subscription on `e` raise (it is invoked and its
callback returns `Except.error`)? Used to characterise the error log of
`publish`. -/
def raisesOn (s : Subscription) (e : Event) : Bool :=
  acceptsEvent s e &&
    (match s.callback e with
     | Except.ok _ => false
     | Except.error _ => true)

/-! ## Helper lemmas -/

theorem readCell_writeCell_self (σ : Store) (r : Nat) (v : List Payload)
    (h : r < σ.length) : readCell (writeCell σ r v) r = v := by
  simp [readCell, writeCell, List.getD, List.getElem?_set_self, h]

theorem readCell_writeCell_ne (σ : Store) (r r2 : Nat) (v : List Payload)
    (h : r ≠ r2) : readCell (writeCell σ r v) r2 = readCell σ r2 := by
  simp [readCell, writeCell, List.getD, List.getElem?_set_ne h]

theorem readCell_appendCell_self (σ : Store) (r : Nat) (x : Payload)
    (h : r < σ.length) : readCell (appendCell σ r x) r = readCell σ r ++ [x] := by
  simp [appendCell, readCell_writeCell_self _ _ _ h]

theorem readCell_appendCell_ne (σ : Store) (r r2 : Nat) (x : Payload)
    (h : r ≠ r2) : readCell (appendCell σ r x) r2 = readCell σ r2 :=
  readCell_writeCell_ne _ _ _ _ h

theorem length_writeCell (σ : Store) (r : Nat) (v : List Payload) :
    (writeCell σ r v).length = σ.length := by
  simp [writeCell]

theorem length_appendCell (σ : Store) (r : Nat) (x : Payload) :
    (appendCell σ r x).length = σ.length :=
  length_writeCell _ _ _

theorem readCell_concat_lt (σ : Store) (v : List Payload) (r : Nat)
    (h : r < σ.length) : readCell (σ ++ [v]) r = readCell σ r := by
  simp [readCell, List.getD, List.getElem?_append_left h]

theorem readCell_concat_length (σ : Store) (v : List Payload) :
    readCell (σ ++ [v]) σ.length = v := by
  simp [readCell, List.getD]

theorem pget_pset_ne (p : Payload) (k k2 : String) (v : Val) (h : k ≠ k2) :
    pget (pset p k v) k2 = pget p k2 := by
  induction p with
  | nil => simp [pget, pset, h]
  | cons hd tl ih =>
    obtain ⟨k3, w⟩ := hd
    by_cases hk : k3 = k
    · simp [pset, pget, hk, h]
    · simp [pset, pget, hk, ih]

theorem pget_augmentPayload (p : Payload) (eid ts : String) (k : String)
    (h1 : k ≠ "event_id") (h2 : k ≠ "timestamp") :
    pget (augmentPayload p eid ts) k = pget p k := by
  unfold augmentPayload
  rw [pget_pset_ne _ _ _ _ (fun hh => h2 hh.symm),
    pget_pset_ne _ _ _ _ (fun hh => h1 hh.symm)]

theorem notifySubs_invoked (subs : List Subscription) (e : Event) :
    (notifySubs subs e).1
      = (subs.filter (fun s => acceptsEvent s e)).map (fun s => s.id) := by
  induction subs with
  | nil => rfl
  | cons s rest ih =>
    simp only [notifySubs, List.filter_cons]
    cases hacc : acceptsEvent s e
    · simpa [hacc] using ih
    · cases hcb : s.callback e <;> simp [hacc, hcb, ih]

theorem notifySubs_errored (subs : List Subscription) (e : Event) :
    (notifySubs subs e).2
      = (subs.filter (fun s => raisesOn s e)).map (fun s => s.id) := by
  induction subs with
  | nil => rfl
  | cons s rest ih =>
    simp only [notifySubs, List.filter_cons, raisesOn]
    cases hacc : acceptsEvent s e
    · simpa [hacc, raisesOn] using ih
    · cases hcb : s.callback e <;> simp [hacc, hcb, ih, raisesOn]

theorem gatherPartition_spec {I Q : Type} (calcQuote : I → Except String Q)
    (items : List I) :
    gatherPartition (items.zip (items.map calcQuote))
      = (items.filterMap (fun i => (calcQuote i).toOption),
         items.filterMap (fun i =>
           match calcQuote i with
           | Except.ok _ => none
           | Except.error e => some (i, e))) := by
  induction items with
  | nil => rfl
  | cons i rest ih =>
    rw [List.map_cons, List.zip_cons_cons]
    cases h : calcQuote i <;>
      simp only [gatherPartition, ih, List.filterMap_cons, h, Except.toOption]

theorem gatherPartition_length {I Q : Type}
    (l : List (I × Except String Q)) :
    (gatherPartition l).1.length + (gatherPartition l).2.length = l.length := by
  induction l with
  | nil => rfl
  | cons p rest ih =>
    obtain ⟨i, r⟩ := p
    cases r <;> simp [gatherPartition] <;> omega

theorem runGen_of_no_trunc (pred : Cand → Bool) (limit : Option Int)
    (hlim : ∀ count, truncCond limit count = false) :
    ∀ (cands : List Cand) (count : Nat),
      runGen pred limit cands count = (cands.filter pred).map toOffer := by
  intro cands
  induction cands with
  | nil => intro count; rfl
  | cons c rest ih =>
    intro count
    cases hc : pred c <;> simp [runGen, hc, hlim, List.filter_cons, ih]

theorem runGen_of_pos (pred : Cand → Bool) (l : Int) (hl : 0 < l) :
    ∀ (cands : List Cand) (count : Nat),
      runGen pred (some l) cands count
        = ((cands.filter pred).take (l.toNat - count)).map toOffer := by
  intro cands
  induction cands with
  | nil => intro count; simp [runGen]
  | cons c rest ih =>
    intro count
    cases hc : pred c
    · simp [runGen, hc, List.filter_cons, ih]
    · by_cases hcount : l ≤ (count : Int)
      · have h0 : l.toNat - count = 0 := by omega
        simp [runGen, hc, truncCond, hcount, hl.ne.symm, List.filter_cons, h0]
      · have h1 : l.toNat - count = (l.toNat - (count + 1)) + 1 := by omega
        simp [runGen, hc, truncCond, hcount, hl.ne.symm, List.filter_cons, ih, h1]

theorem pullOne_skip (pred : Cand → Bool) (limit : Option Int) (c : Cand)
    (rest : List Cand) (count : Nat) (hc : pred c = false) :
    pullOne pred limit ⟨c :: rest, count⟩ = pullOne pred limit ⟨rest, count⟩ := by
  simp [pullOne, pullOneAux, hc]

theorem pulls_spec (pred : Cand → Bool) (l : Int) :
    ∀ (cands : List Cand) (k count : Nat), (count : Int) + (k : Int) ≤ l →
      pulls pred (some l) k ⟨cands, count⟩
        = (((cands.filter pred).take k).map toOffer,
           ⟨(examineSplit pred k cands).2,
            count + ((cands.filter pred).take k).length⟩) := by
  intro cands
  induction cands with
  | nil =>
    intro k count hk
    cases k with
    | zero => simp [pulls, examineSplit]
    | succ k2 => simp [pulls, pullOne, pullOneAux, examineSplit]
  | cons c rest ih =>
    intro k count hk
    cases k with
    | zero => simp [pulls, examineSplit]
    | succ k2 =>
      cases hc : pred c
      · have hrec := ih (k2 + 1) count hk
        rw [pulls]
        rw [pullOne_skip _ _ _ _ _ hc]
        rw [pulls] at hrec
        rw [hrec]
        simp [List.filter_cons, hc, examineSplit]
      · have hcount : ¬ l ≤ (count : Int) := by
          push_cast at hk
          omega
        have htr : truncCond (some l) count = false := by
          simp [truncCond, hcount]
        have hrec := ih k2 (count + 1) (by push_cast at hk ⊢; omega)
        rw [pulls]
        simp only [pullOne, pullOneAux, hc, if_true, htr, Bool.false_eq_true,
          if_false, hrec]
        simp [List.filter_cons, hc, examineSplit]
        omega

theorem examineSplit_join (pred : Cand → Bool) :
    ∀ (cands : List Cand) (k : Nat),
      (examineSplit pred k cands).1 ++ (examineSplit pred k cands).2 = cands := by
  intro cands
  induction cands with
  | nil => intro k; cases k <;> simp [examineSplit]
  | cons c rest ih =>
    intro k
    cases k with
    | zero => simp [examineSplit]
    | succ k2 => cases hc : pred c <;> simp [examineSplit, hc, ih]

theorem examineSplit_filter (pred : Cand → Bool) :
    ∀ (cands : List Cand) (k : Nat),
      (examineSplit pred k cands).1.filter pred = (cands.filter pred).take k := by
  intro cands
  induction cands with
  | nil => intro k; cases k <;> simp [examineSplit]
  | cons c rest ih =>
    intro k
    cases k with
    | zero => simp [examineSplit]
    | succ k2 =>
      cases hc : pred c <;>
        simp [examineSplit, hc, List.filter_cons, ih]

theorem sortByKeyDesc_perm (key : Offer → Int) (l : List Offer) :
    (sortByKeyDesc key l).Perm l :=
  List.perm_insertionSort _ l

theorem sortByKeyDesc_sorted (key : Offer → Int) (l : List Offer) :
    (sortByKeyDesc key l).Sorted (fun a b => key b ≤ key a) := by
  haveI : IsTotal Offer (fun a b => key b ≤ key a) :=
    ⟨fun a b => le_total (key b) (key a)⟩
  haveI : IsTrans Offer (fun a b => key b ≤ key a) :=
    ⟨fun _ _ _ hab hbc => le_trans hbc hab⟩
  exact List.sorted_insertionSort _ l

theorem filter_orderedInsert (key : Offer → Int) (x : Offer)
    (l : List Offer) (v : Int) :
    (List.orderedInsert (fun a b => key b ≤ key a) x l).filter
        (fun y => key y == v)
      = if key x == v then x :: l.filter (fun y => key y == v)
        else l.filter (fun y => key y == v) := by
  induction l with
  | nil => simp [List.orderedInsert, List.filter_cons]
  | cons b l ih =>
    by_cases hxb : key b ≤ key x
    · simp only [List.orderedInsert, if_pos hxb]
      by_cases hxv : key x = v <;>
        simp [List.filter_cons, hxv]
    · have hbv : key x < key b := lt_of_not_le hxb
      simp only [List.orderedInsert, if_neg hxb, List.filter_cons]
      by_cases hbveq : key b = v
      · have hxvne : ¬ key x = v := by omega
        simp [hbveq, hxvne, ih]
      · by_cases hxv : key x = v <;> simp [hbveq, hxv, ih]

theorem sortByKeyDesc_filter (key : Offer → Int) (l : List Offer) (v : Int) :
    (sortByKeyDesc key l).filter (fun y => key y == v)
      = l.filter (fun y => key y == v) := by
  induction l with
  | nil => rfl
  | cons x l ih =>
    show (List.orderedInsert _ x (sortByKeyDesc key l)).filter _ = _
    rw [filter_orderedInsert]
    by_cases hxv : key x = v <;> simp [List.filter_cons, hxv, ih]

theorem sortByKeyDesc_stable (key : Offer → Int) (l : List Offer) :
    IsStableDescSortBy key l (sortByKeyDesc key l) :=
  ⟨sortByKeyDesc_perm key l, sortByKeyDesc_sorted key l,
   fun v => sortByKeyDesc_filter key l v⟩

theorem foldl_sorts_perm (scorers : List (Offer → Int)) :
    ∀ init : List Offer,
      (scorers.foldl (fun acc s => sortByKeyDesc s acc) init).Perm init := by
  induction scorers with
  | nil => intro init; rfl
  | cons s rest ih =>
    intro init
    exact (ih (sortByKeyDesc s init)).trans (sortByKeyDesc_perm s init)

/-! ## Claim theorems -/

/-- C4: `Left(e).bind(f) = Left(e)`, `Left(e).map(f) = Left(e)`,
`Nothing.bind(f) = Nothing` and `Nothing.map(f) = Nothing` for every `f`
(so the supplied function is never consulted); `map(identity)` is the
identity, `bind` is associative, and `Right(x).bind(f) = f(x)`,
`Just(x).bind(f) = f(x)`. -/
theorem C4_monad_laws :
    (∀ (ε α β : Type) (e : ε) (f : α → Either ε β),
      (Either.left e).bind f = Either.left e)
  ∧ (∀ (ε α β : Type) (e : ε) (f : α → β),
      (Either.left e : Either ε α).map f = Either.left e)
  ∧ (∀ (α β : Type) (f : α → Maybe β),
      (Maybe.nothing : Maybe α).bind f = Maybe.nothing)
  ∧ (∀ (α β : Type) (f : α → β),
      (Maybe.nothing : Maybe α).map f = Maybe.nothing)
  ∧ (∀ (α : Type) (m : Maybe α), m.map id = m)
  ∧ (∀ (ε α : Type) (m : Either ε α), m.map id = m)
  ∧ (∀ (α β γ : Type) (m : Maybe α) (f : α → Maybe β) (g : β → Maybe γ),
      (m.bind f).bind g = m.bind (fun x => (f x).bind g))
  ∧ (∀ (ε α β γ : Type) (m : Either ε α) (f : α → Either ε β)
        (g : β → Either ε γ),
      (m.bind f).bind g = m.bind (fun x => (f x).bind g))
  ∧ (∀ (ε α β : Type) (x : α) (f : α → Either ε β),
      (Either.right x : Either ε α).bind f = f x)
  ∧ (∀ (α β : Type) (x : α) (f : α → Maybe β),
      (Maybe.just x).bind f = f x) := by
  refine ⟨fun ε α β e f => rfl, fun ε α β e f => rfl, fun α β f => rfl,
    fun α β f => rfl, ?_, ?_, ?_, ?_, fun ε α β x f => rfl,
    fun α β x f => rfl⟩
  · intro α m; cases m <;> rfl
  · intro ε α m; cases m <;> rfl
  · intro α β γ m f g; cases m <;> rfl
  · intro ε α β γ m f g; cases m <;> rfl

/-- C9: `quote_batch` counts every input item in exactly one of
`successful` / `failed`: `total_count` is the number of items,
`success_count + failure_count = total_count`, `successful` collects, in
order, exactly the quotes of the items whose computation succeeds, and
`failed` collects, in order, each faulting item paired with its fault
message — each item's outcome depending only on its own computation. -/
theorem C9_quote_batch_partition {I Q : Type}
    (calcQuote : I → Except String Q) (items : List I) :
    (quote_batch calcQuote items).total_count = items.length
  ∧ (quote_batch calcQuote items).success_count
      + (quote_batch calcQuote items).failure_count
      = (quote_batch calcQuote items).total_count
  ∧ (quote_batch calcQuote items).successful
      = items.filterMap (fun i => (calcQuote i).toOption)
  ∧ (quote_batch calcQuote items).failed
      = items.filterMap (fun i =>
          match calcQuote i with
          | Except.ok _ => none
          | Except.error e => some (i, e)) := by
  have hspec := gatherPartition_spec calcQuote items
  have hlen := gatherPartition_length (items.zip (items.map calcQuote))
  have hzlen : (items.zip (items.map calcQuote)).length = items.length := by
    simp
  refine ⟨rfl, ?_, ?_, ?_⟩
  · show (gatherPartition (items.zip (items.map calcQuote))).1.length
      + (gatherPartition (items.zip (items.map calcQuote))).2.length
      = items.length
    omega
  · show (gatherPartition (items.zip (items.map calcQuote))).1 = _
    rw [hspec]
  · show (gatherPartition (items.zip (items.map calcQuote))).2 = _
    rw [hspec]

/-- C10: `lazy_search_results` tests `limit` for truthiness
(`if limit and count >= limit`), so passing `limit=None` (the default) or
`limit=0` disables truncation entirely and the generator yields an offer
for every candidate of the cross-product passing the search predicate. -/
theorem C10_zero_limit_yields_all (hotels : List Hotel)
    (room_types : List RoomType) (rates : List RatePlan)
    (prices : List Price) (availability : List Availability)
    (req : SearchRequest) :
    lazy_search_results hotels room_types rates prices availability req none
      = ((offerStream hotels room_types rates prices availability).filter
          (searchPredicate req)).map toOffer
  ∧ lazy_search_results hotels room_types rates prices availability req
        (some 0)
      = ((offerStream hotels room_types rates prices availability).filter
          (searchPredicate req)).map toOffer := by
  constructor
  · exact runGen_of_no_trunc _ none (fun _ => rfl) _ _
  · exact runGen_of_no_trunc _ (some 0) (fun _ => by simp [truncCond]) _ _

/-- C6: a fault in one subscriber's callback does not affect the rest of
`publish`: the event is appended to the history and reduced into the
derived state, every subscriber registered for the event's name whose
optional filter accepts the event is invoked, in registration order,
whatever faults the callbacks raise, and the faulting subscribers are
exactly the invoked ones whose callback raised (`publish` itself always
completes). -/
theorem C6_publish_isolates_subscriber_faults (bus : EventBus) (σ : Store)
    (e : Event) :
    (publish bus σ e).bus.event_history = bus.event_history ++ [e]
  ∧ (publish bus σ e).bus.state = (updateState bus.state σ e).1
  ∧ (publish bus σ e).store = (updateState bus.state σ e).2
  ∧ (publish bus σ e).invoked
      = ((bus.subscribers.filter (fun s => s.event_type == e.name)).filter
          (fun s => acceptsEvent s e)).map (fun s => s.id)
  ∧ (publish bus σ e).errored
      = ((bus.subscribers.filter (fun s => s.event_type == e.name)).filter
          (fun s => raisesOn s e)).map (fun s => s.id) :=
  ⟨rfl, rfl, rfl, notifySubs_invoked _ _, notifySubs_errored _ _⟩

/-- C1: `create_booking` with a guest dict lacking a `name` key does *not*
return `Left("Guest name is required")`: `_validate_booking` raises
`ValueError(result.get_or_else("Validation failed"))`, and on a `Left`,
`get_or_else` returns the supplied default, so the validator's message is
discarded and the result is `Left("Validation failed")`. Evaluated here at
the failing input `guest = {}` with an empty cart. -/
theorem C1_create_booking_discards_validator_message :
    create_booking "booking_1" "2024-01-01 00:00:00" [] [] [] [] []
        = Either.left "Validation failed"
  ∧ create_booking "booking_1" "2024-01-01 00:00:00" [] [] [] [] []
        ≠ Either.left "Guest name is required" := by
  constructor
  · rfl
  · decide

/-- C8: `quote_offer("hotel_1","room_1","rate_1","2024-01-01","2024-01-03",2)`
yields `nights = 2`, `total_price = 200`, `currency = "USD"`; and for every
pair of well-formed dates, `nights` is the civil-day difference
`checkout - checkin` and `total_price = nights * 100` at the fixed 100
per-night rate, with `currency = "USD"`. -/
theorem C8_quote_offer_spec (now hotel_id room_type_id rate_id : String)
    (checkin checkout : String) (guests : Int) (y1 m1 d1 y2 m2 d2 : Nat)
    (h1 : parseDate checkin = some (y1, m1, d1))
    (h2 : parseDate checkout = some (y2, m2, d2)) :
    quote_offer now "hotel_1" "room_1" "rate_1" "2024-01-01" "2024-01-03" 2
      = some { hotel_id := "hotel_1", room_type_id := "room_1",
               rate_id := "rate_1", checkin := "2024-01-01",
               checkout := "2024-01-03", guests := 2, nights := 2,
               total_price := 200, currency := "USD", calculated_at := now }
  ∧ quote_offer now hotel_id room_type_id rate_id checkin checkout guests
      = some { hotel_id := hotel_id, room_type_id := room_type_id,
               rate_id := rate_id, checkin := checkin, checkout := checkout,
               guests := guests,
               nights := (civilDay y2 m2 d2 : Int) - (civilDay y1 m1 d1 : Int),
               total_price :=
                 ((civilDay y2 m2 d2 : Int) - (civilDay y1 m1 d1 : Int)) * 100,
               currency := "USD", calculated_at := now } := by
  constructor
  · rfl
  · simp [quote_offer, h1, h2]

/-- C8 witness: the theorem applied at the concrete scenario inputs. -/
theorem C8_quote_offer_spec_witness :
    parseDate "2024-01-01" = some (2024, 1, 1)
  ∧ parseDate "2024-01-03" = some (2024, 1, 3)
  ∧ (quote_offer "2024-05-01T10:00:00" "hotel_1" "room_1" "rate_1"
        "2024-01-01" "2024-01-03" 2
      = some { hotel_id := "hotel_1", room_type_id := "room_1",
               rate_id := "rate_1", checkin := "2024-01-01",
               checkout := "2024-01-03", guests := 2, nights := 2,
               total_price := 200, currency := "USD",
               calculated_at := "2024-05-01T10:00:00" }
    ∧ quote_offer "2024-05-01T10:00:00" "hotel_1" "room_1" "rate_1"
        "2024-01-01" "2024-01-03" 2
      = some { hotel_id := "hotel_1", room_type_id := "room_1",
               rate_id := "rate_1", checkin := "2024-01-01",
               checkout := "2024-01-03", guests := 2,
               nights := (civilDay 2024 1 3 : Int) - (civilDay 2024 1 1 : Int),
               total_price :=
                 ((civilDay 2024 1 3 : Int) - (civilDay 2024 1 1 : Int)) * 100,
               currency := "USD", calculated_at := "2024-05-01T10:00:00" }) :=
  ⟨rfl, rfl,
   C8_quote_offer_spec "2024-05-01T10:00:00" "hotel_1" "room_1" "rate_1"
     "2024-01-01" "2024-01-03" 2 2024 1 1 2024 1 3 rfl rfl⟩

/-- C7: for a positive `limit`, `lazy_search_results` yields at most
`limit` offers — the matching prefix of the candidate cross-product — and
the generator is incremental: a consumer pulling `k ≤ limit` results
drives it through exactly the minimal prefix of the cross-product
containing `k` matching candidates (`examineSplit`), so candidates beyond
those needed for the consumed results are never examined. -/
theorem C7_lazy_limit_and_incrementality (hotels : List Hotel)
    (room_types : List RoomType) (rates : List RatePlan)
    (prices : List Price) (availability : List Availability)
    (req : SearchRequest) (l : Int) (hl : 0 < l) :
    let pred := searchPredicate req
    let stream := offerStream hotels room_types rates prices availability
    let res := lazy_search_results hotels room_types rates prices
      availability req (some l)
    res = ((stream.filter pred).take l.toNat).map toOffer
  ∧ res.length ≤ l.toNat
  ∧ (∀ k : Nat, (k : Int) ≤ l →
      pulls pred (some l) k { cands := stream, count := 0 }
        = (((stream.filter pred).take k).map toOffer,
           { cands := (examineSplit pred k stream).2,
             count := ((stream.filter pred).take k).length }))
  ∧ (∀ k : Nat,
      (examineSplit pred k stream).1 ++ (examineSplit pred k stream).2
        = stream)
  ∧ (∀ k : Nat,
      (examineSplit pred k stream).1.filter pred
        = (stream.filter pred).take k) := by
  intro pred stream res
  have hres : res = ((stream.filter pred).take l.toNat).map toOffer := by
    show runGen pred (some l) stream 0 = _
    rw [runGen_of_pos pred l hl stream 0, Nat.sub_zero]
  refine ⟨hres, ?_, ?_, examineSplit_join pred stream,
    examineSplit_filter pred stream⟩
  · rw [hres]
    simp
  · intro k hk
    have := pulls_spec pred l stream k 0 (by push_cast; omega)
    simpa using this

/-- C7 witness: the theorem applied at a one-hotel snapshot with
`limit = 1`. -/
theorem C7_lazy_limit_and_incrementality_witness :
    (0 : Int) < 1
  ∧ (let pred := searchPredicate {}
     let stream := offerStream
       [{ id := "h1", name := "H", stars := 3, city := "X", features := [] }]
       [{ id := "r1", hotel_id := "h1", name := "R", capacity := 2,
          beds := [], features := [] }]
       [{ id := "p1", hotel_id := "h1", room_type_id := "r1", title := "T",
          meal := "BB", refundable := true, cancel_before_days := none }]
       [] []
     let res := lazy_search_results
       [{ id := "h1", name := "H", stars := 3, city := "X", features := [] }]
       [{ id := "r1", hotel_id := "h1", name := "R", capacity := 2,
          beds := [], features := [] }]
       [{ id := "p1", hotel_id := "h1", room_type_id := "r1", title := "T",
          meal := "BB", refundable := true, cancel_before_days := none }]
       [] [] {} (some 1)
     res = ((stream.filter pred).take (1 : Int).toNat).map toOffer
   ∧ res.length ≤ (1 : Int).toNat
   ∧ (∀ k : Nat, (k : Int) ≤ 1 →
        pulls pred (some 1) k { cands := stream, count := 0 }
          = (((stream.filter pred).take k).map toOffer,
             { cands := (examineSplit pred k stream).2,
               count := ((stream.filter pred).take k).length }))
   ∧ (∀ k : Nat,
        (examineSplit pred k stream).1 ++ (examineSplit pred k stream).2
          = stream)
   ∧ (∀ k : Nat,
        (examineSplit pred k stream).1.filter pred
          = (stream.filter pred).take k)) :=
  ⟨by decide,
   C7_lazy_limit_and_incrementality
     [{ id := "h1", name := "H", stars := 3, city := "X", features := [] }]
     [{ id := "r1", hotel_id := "h1", name := "R", capacity := 2,
        beds := [], features := [] }]
     [{ id := "p1", hotel_id := "h1", room_type_id := "r1", title := "T",
        meal := "BB", refundable := true, cancel_before_days := none }]
     [] [] {} 1 (by decide)⟩

/-- C2: with at least one configured scorer (`scorers = init ++ [lastS]`),
`SearchService.search` equals the composition of one stable descending
re-sort per scorer, applied to the filtered results in configuration
order; each such re-sort is a genuine stable descending sort
(permutation, sorted with larger keys first, ties kept in their previous
order), so the result is the stable descending sort by the *last* scorer
of the list produced by the earlier scorers: it is sorted descending by
the last scorer's key, offers tied on it keep the order induced by the
earlier scorers, and the whole result is a permutation of the filtered
offers. -/
theorem C2_search_repeated_stable_sort (svc : SearchService)
    (init : List (Offer → Int)) (lastS : Offer → Int)
    (hs : svc.scorers = init ++ [lastS]) (hotels : List Hotel)
    (room_types : List RoomType) (rates : List RatePlan)
    (prices : List Price) (availability : List Availability)
    (req : SearchRequest) :
    let filtered := (lazy_search_results hotels room_types rates prices
        availability req (some (req.limit.getD 50))).filter
        (fun r => svc.filters.all (fun f => f r))
    let res := svc.search hotels room_types rates prices availability req
    res = svc.scorers.foldl (fun acc s => sortByKeyDesc s acc) filtered
  ∧ (∀ (key : Offer → Int) (l : List Offer),
      IsStableDescSortBy key l (sortByKeyDesc key l))
  ∧ res = sortByKeyDesc lastS
      (init.foldl (fun acc s => sortByKeyDesc s acc) filtered)
  ∧ IsStableDescSortBy lastS
      (init.foldl (fun acc s => sortByKeyDesc s acc) filtered) res
  ∧ res.Sorted (fun a b => lastS b ≤ lastS a)
  ∧ res.Perm filtered := by
  intro filtered res
  have hres0 : res
      = svc.scorers.foldl (fun acc s => sortByKeyDesc s acc) filtered := rfl
  have hres : res = sortByKeyDesc lastS
      (init.foldl (fun acc s => sortByKeyDesc s acc) filtered) := by
    rw [hres0, hs, List.foldl_append]
    rfl
  refine ⟨hres0, fun key l => sortByKeyDesc_stable key l, hres, ?_, ?_, ?_⟩
  · rw [hres]
    exact sortByKeyDesc_stable _ _
  · rw [hres]
    exact sortByKeyDesc_sorted _ _
  · rw [hres0]
    exact foldl_sorts_perm _ _

/-- C2 witness: the theorem applied to a service configured with the
single scorer `stars`, on an empty snapshot. -/
theorem C2_search_repeated_stable_sort_witness :
    (SearchService.mk [] [fun o => o.hotel.stars]).scorers
      = [] ++ [fun o => o.hotel.stars]
  ∧ (let filtered := (lazy_search_results [] [] [] [] [] {}
        (some (({} : SearchRequest).limit.getD 50))).filter
        (fun r => (SearchService.mk [] [fun o => o.hotel.stars]).filters.all
          (fun f => f r))
     let res := (SearchService.mk [] [fun o => o.hotel.stars]).search
       [] [] [] [] [] {}
     res = (SearchService.mk [] [fun o => o.hotel.stars]).scorers.foldl
        (fun acc s => sortByKeyDesc s acc) filtered
   ∧ (∀ (key : Offer → Int) (l : List Offer),
        IsStableDescSortBy key l (sortByKeyDesc key l))
   ∧ res = sortByKeyDesc (fun o => o.hotel.stars)
        (List.foldl (fun acc s => sortByKeyDesc s acc) filtered [])
   ∧ IsStableDescSortBy (fun o => o.hotel.stars)
        (List.foldl (fun acc s => sortByKeyDesc s acc) filtered []) res
   ∧ res.Sorted (fun a b => b.hotel.stars ≤ a.hotel.stars)
   ∧ res.Perm filtered) :=
  ⟨rfl,
   C2_search_repeated_stable_sort
     (SearchService.mk [] [fun o => o.hotel.stars]) []
     (fun o => o.hotel.stars) rfl [] [] [] [] [] {}⟩

/-- C5: from any well-formed derived state, a `HOLD` event appends its
payload, augmented with the event id and timestamp, to `active_holds`
(preserving the payload's `id`), a subsequent `BOOKED` event whose
payload's `hold_id` is `"h1"` appends its augmented payload to
`recent_bookings` and removes exactly the `active_holds` entries whose
`id` is `"h1"` (so none remain); and `SEARCH`, `CANCELLED` and
`PRICE_CHANGED` events append their augmented payloads to
`search_queries`, `cancellations` and `price_changes` respectively. -/
theorem C5_reducer_semantics (d : StateDict) (σ : Store) (hwf : d.wf σ)
    (holdP bookedP : Payload) (eid1 ts1 eid2 ts2 : String)
    (hhold : pget holdP "id" = some (Val.vstr "h1"))
    (hbook : pget bookedP "hold_id" = some (Val.vstr "h1")) :
    let u1 := updateState d σ
      { id := eid1, ts := ts1, name := "HOLD", payload := holdP }
    let u2 := updateState u1.1 u1.2
      { id := eid2, ts := ts2, name := "BOOKED", payload := bookedP }
    readCell u1.2 u1.1.active_holds
      = readCell σ d.active_holds ++ [augmentPayload holdP eid1 ts1]
  ∧ pget (augmentPayload holdP eid1 ts1) "id" = some (Val.vstr "h1")
  ∧ readCell u2.2 u2.1.recent_bookings
      = readCell σ d.recent_bookings ++ [augmentPayload bookedP eid2 ts2]
  ∧ readCell u2.2 u2.1.active_holds
      = (readCell u1.2 u1.1.active_holds).filter
          (fun h2 => !(pget h2 "id" == some (Val.vstr "h1")))
  ∧ (∀ h2 ∈ readCell u2.2 u2.1.active_holds,
      pget h2 "id" ≠ some (Val.vstr "h1"))
  ∧ (∀ (p : Payload) (eid ts : String),
      readCell (updateState d σ
          { id := eid, ts := ts, name := "SEARCH", payload := p }).2
        (updateState d σ
          { id := eid, ts := ts, name := "SEARCH", payload := p }).1.search_queries
        = readCell σ d.search_queries ++ [augmentPayload p eid ts])
  ∧ (∀ (p : Payload) (eid ts : String),
      readCell (updateState d σ
          { id := eid, ts := ts, name := "CANCELLED", payload := p }).2
        (updateState d σ
          { id := eid, ts := ts, name := "CANCELLED", payload := p }).1.cancellations
        = readCell σ d.cancellations ++ [augmentPayload p eid ts])
  ∧ (∀ (p : Payload) (eid ts : String),
      readCell (updateState d σ
          { id := eid, ts := ts, name := "PRICE_CHANGED", payload := p }).2
        (updateState d σ
          { id := eid, ts := ts,
            name := "PRICE_CHANGED", payload := p }).1.price_changes
        = readCell σ d.price_changes ++ [augmentPayload p eid ts]) := by
  obtain ⟨hb1, hb2, hb3, hb4, hb5, hne1, hne2, hne3, hne4, hne5, hne6, hne7,
    hne8, hne9, hne10⟩ := hwf
  intro u1 u2
  have hu1 : u1
      = (d, appendCell σ d.active_holds (augmentPayload holdP eid1 ts1)) :=
    rfl
  have hlen1 : u1.2.length = σ.length := by
    rw [hu1]
    exact length_appendCell _ _ _
  have hu2 : u2
      = ({ d with active_holds :=
            (appendCell u1.2 d.recent_bookings
              (augmentPayload bookedP eid2 ts2)).length },
         appendCell u1.2 d.recent_bookings (augmentPayload bookedP eid2 ts2)
          ++ [(readCell (appendCell u1.2 d.recent_bookings
                (augmentPayload bookedP eid2 ts2)) d.active_holds).filter
              (fun hold => !(pget hold "id" == pget bookedP "hold_id"))]) :=
    rfl
  have hlenσ1 : (appendCell u1.2 d.recent_bookings
      (augmentPayload bookedP eid2 ts2)).length = σ.length := by
    rw [length_appendCell, hlen1]
  have hA : readCell u1.2 u1.1.active_holds
      = readCell σ d.active_holds ++ [augmentPayload holdP eid1 ts1] := by
    rw [hu1]
    exact readCell_appendCell_self σ d.active_holds _ hb1
  have hB : pget (augmentPayload holdP eid1 ts1) "id"
      = some (Val.vstr "h1") := by
    rw [pget_augmentPayload _ _ _ _ (by decide) (by decide), hhold]
  have hread_active_σ1 : readCell (appendCell u1.2 d.recent_bookings
      (augmentPayload bookedP eid2 ts2)) d.active_holds
      = readCell u1.2 d.active_holds :=
    readCell_appendCell_ne _ _ _ _ (fun hh => hne1 hh.symm)
  have hC : readCell u2.2 u2.1.recent_bookings
      = readCell σ d.recent_bookings ++ [augmentPayload bookedP eid2 ts2] := by
    rw [hu2]
    show readCell (_ ++ [_]) d.recent_bookings = _
    rw [readCell_concat_lt _ _ _ (by rw [hlenσ1]; exact hb2),
      readCell_appendCell_self _ _ _ (by rw [hlen1]; exact hb2), hu1,
      readCell_appendCell_ne _ _ _ _ hne1]
  have hD : readCell u2.2 u2.1.active_holds
      = (readCell u1.2 u1.1.active_holds).filter
          (fun h2 => !(pget h2 "id" == some (Val.vstr "h1"))) := by
    rw [hu2]
    show readCell (_ ++ [_]) (appendCell u1.2 d.recent_bookings
      (augmentPayload bookedP eid2 ts2)).length = _
    rw [readCell_concat_length, hread_active_σ1, hbook]
    rfl
  refine ⟨hA, hB, hC, hD, ?_, ?_, ?_, ?_⟩
  · intro h2 hmem heq
    rw [hD] at hmem
    have := (List.mem_filter.mp hmem).2
    rw [heq] at this
    simp at this
  · intro p eid ts
    exact readCell_appendCell_self σ d.search_queries _ hb4
  · intro p eid ts
    exact readCell_appendCell_self σ d.cancellations _ hb5
  · intro p eid ts
    exact readCell_appendCell_self σ d.price_changes _ hb3

/-- C5 witness: the theorem applied to a freshly constructed bus and
concrete `HOLD`/`BOOKED` payloads carrying id `"h1"`. -/
theorem C5_reducer_semantics_witness :
    (StateDict.mk 0 1 2 3 4).wf [[], [], [], [], []]
  ∧ pget [("id", Val.vstr "h1")] "id" = some (Val.vstr "h1")
  ∧ pget [("hold_id", Val.vstr "h1")] "hold_id" = some (Val.vstr "h1")
  ∧ (let u1 := updateState (StateDict.mk 0 1 2 3 4) [[], [], [], [], []]
       { id := "e1", ts := "t1", name := "HOLD",
         payload := [("id", Val.vstr "h1")] }
     let u2 := updateState u1.1 u1.2
       { id := "e2", ts := "t2", name := "BOOKED",
         payload := [("hold_id", Val.vstr "h1")] }
     readCell u1.2 u1.1.active_holds
       = readCell [[], [], [], [], []] (StateDict.mk 0 1 2 3 4).active_holds
          ++ [augmentPayload [("id", Val.vstr "h1")] "e1" "t1"]
   ∧ pget (augmentPayload [("id", Val.vstr "h1")] "e1" "t1") "id"
       = some (Val.vstr "h1")
   ∧ readCell u2.2 u2.1.recent_bookings
       = readCell [[], [], [], [], []] (StateDict.mk 0 1 2 3 4).recent_bookings
          ++ [augmentPayload [("hold_id", Val.vstr "h1")] "e2" "t2"]
   ∧ readCell u2.2 u2.1.active_holds
       = (readCell u1.2 u1.1.active_holds).filter
           (fun h2 => !(pget h2 "id" == some (Val.vstr "h1")))
   ∧ (∀ h2 ∈ readCell u2.2 u2.1.active_holds,
       pget h2 "id" ≠ some (Val.vstr "h1"))
   ∧ (∀ (p : Payload) (eid ts : String),
       readCell (updateState (StateDict.mk 0 1 2 3 4) [[], [], [], [], []]
           { id := eid, ts := ts, name := "SEARCH", payload := p }).2
         (updateState (StateDict.mk 0 1 2 3 4) [[], [], [], [], []]
           { id := eid, ts := ts, name := "SEARCH", payload := p }).1.search_queries
         = readCell [[], [], [], [], []]
            (StateDict.mk 0 1 2 3 4).search_queries ++ [augmentPayload p eid ts])
   ∧ (∀ (p : Payload) (eid ts : String),
       readCell (updateState (StateDict.mk 0 1 2 3 4) [[], [], [], [], []]
           { id := eid, ts := ts, name := "CANCELLED", payload := p }).2
         (updateState (StateDict.mk 0 1 2 3 4) [[], [], [], [], []]
           { id := eid, ts := ts, name := "CANCELLED", payload := p }).1.cancellations
         = readCell [[], [], [], [], []]
            (StateDict.mk 0 1 2 3 4).cancellations ++ [augmentPayload p eid ts])
   ∧ (∀ (p : Payload) (eid ts : String),
       readCell (updateState (StateDict.mk 0 1 2 3 4) [[], [], [], [], []]
           { id := eid, ts := ts, name := "PRICE_CHANGED", payload := p }).2
         (updateState (StateDict.mk 0 1 2 3 4) [[], [], [], [], []]
           { id := eid, ts := ts,
             name := "PRICE_CHANGED", payload := p }).1.price_changes
         = readCell [[], [], [], [], []]
            (StateDict.mk 0 1 2 3 4).price_changes ++ [augmentPayload p eid ts])) :=
  ⟨by decide, rfl, rfl,
   C5_reducer_semantics (StateDict.mk 0 1 2 3 4) [[], [], [], [], []]
     (by decide) [("id", Val.vstr "h1")] [("hold_id", Val.vstr "h1")]
     "e1" "t1" "e2" "t2" rfl rfl⟩

/-- C3 counterexample: the mapping returned by `get_state()` is *not* an
immutable snapshot. On a fresh bus, `get_state()` returns a snapshot whose
`active_holds` list is empty; publishing one `HOLD` event afterwards
appends, in place, to the very list object the snapshot holds, so the
list seen through the earlier snapshot changes. -/
theorem C3_snapshot_changes_counterexample :
    let b := newEventBus []
    let snap := get_state b.1
    let r := publish b.1 b.2
      { id := "e1", ts := "t1", name := "HOLD",
        payload := [("id", Val.vstr "h1")] }
    ¬ (readCell r.store snap.active_holds
        = readCell b.2 snap.active_holds) := by
  decide

/-- C3 (amended): `get_state()` returns a *shallow* copy of the derived
state dict: (a) the lists under its keys are shared by reference with the
bus, so an in-place append published after `get_state` (e.g. a `HOLD`) is
visible through the earlier snapshot; (b) symmetrically, mutating a list
reached through the snapshot changes the list the bus's own state sees;
(c) only the top-level mapping is a genuine copy: a `BOOKED` publish
rebinds the bus's `active_holds` entry to a fresh list, and the snapshot
keeps the old list, unchanged. -/
theorem C3_get_state_shallow_copy (bus : EventBus) (σ : Store)
    (hwf : bus.state.wf σ) (p : Payload) (eid ts : String) :
    let snap := get_state bus
    readCell (publish bus σ
        { id := eid, ts := ts, name := "HOLD", payload := p }).store
        snap.active_holds
      = readCell σ snap.active_holds ++ [augmentPayload p eid ts]
  ∧ (∀ x : Payload,
      readCell (appendCell σ snap.active_holds x) bus.state.active_holds
        = readCell σ bus.state.active_holds ++ [x])
  ∧ (∀ (p2 : Payload) (eid2 ts2 : String),
      (publish bus σ
          { id := eid2, ts := ts2, name := "BOOKED", payload := p2 }
        ).bus.state.active_holds ≠ snap.active_holds
    ∧ readCell (publish bus σ
          { id := eid2, ts := ts2, name := "BOOKED", payload := p2 }
        ).store snap.active_holds
        = readCell σ snap.active_holds) := by
  obtain ⟨hb1, hb2, hb3, hb4, hb5, hne1, hne2, hne3, hne4, hne5, hne6, hne7,
    hne8, hne9, hne10⟩ := hwf
  intro snap
  refine ⟨?_, ?_, ?_⟩
  · exact readCell_appendCell_self σ bus.state.active_holds _ hb1
  · intro x
    exact readCell_appendCell_self σ bus.state.active_holds x hb1
  · intro p2 eid2 ts2
    constructor
    · show (appendCell σ bus.state.recent_bookings
          (augmentPayload p2 eid2 ts2)).length ≠ bus.state.active_holds
      rw [length_appendCell]
      omega
    · show readCell (appendCell σ bus.state.recent_bookings
          (augmentPayload p2 eid2 ts2) ++ [_]) bus.state.active_holds = _
      rw [readCell_concat_lt _ _ _
          (by rw [length_appendCell]; exact hb1),
        readCell_appendCell_ne _ _ _ _ (fun hh => hne1 hh.symm)]
      rfl

/-- C3 witness: the amended theorem applied to a freshly constructed bus
and a concrete `HOLD` payload. -/
theorem C3_get_state_shallow_copy_witness :
    (EventBus.mk [] [] (StateDict.mk 0 1 2 3 4)).state.wf [[], [], [], [], []]
  ∧ (let snap := get_state (EventBus.mk [] [] (StateDict.mk 0 1 2 3 4))
     readCell (publish (EventBus.mk [] [] (StateDict.mk 0 1 2 3 4))
        [[], [], [], [], []]
        { id := "e1", ts := "t1", name := "HOLD",
          payload := [("id", Val.vstr "h1")] }).store snap.active_holds
      = readCell [[], [], [], [], []] snap.active_holds
          ++ [augmentPayload [("id", Val.vstr "h1")] "e1" "t1"]
   ∧ (∀ x : Payload,
       readCell (appendCell [[], [], [], [], []] snap.active_holds x)
         (EventBus.mk [] [] (StateDict.mk 0 1 2 3 4)).state.active_holds
        = readCell [[], [], [], [], []]
            (EventBus.mk [] [] (StateDict.mk 0 1 2 3 4)).state.active_holds
            ++ [x])
   ∧ (∀ (p2 : Payload) (eid2 ts2 : String),
       (publish (EventBus.mk [] [] (StateDict.mk 0 1 2 3 4))
          [[], [], [], [], []]
          { id := eid2, ts := ts2, name := "BOOKED", payload := p2 }
         ).bus.state.active_holds ≠ snap.active_holds
     ∧ readCell (publish (EventBus.mk [] [] (StateDict.mk 0 1 2 3 4))
          [[], [], [], [], []]
          { id := eid2, ts := ts2, name := "BOOKED", payload := p2 }
         ).store snap.active_holds
        = readCell [[], [], [], [], []] snap.active_holds)) :=
  ⟨by decide,
   C3_get_state_shallow_copy (EventBus.mk [] [] (StateDict.mk 0 1 2 3 4))
     [[], [], [], [], []] (by decide) [("id", Val.vstr "h1")] "e1" "t1"⟩

end HotelBoq
